import Mathlib

/-!
Shallow embedding of the two HTTP front ends of the repository
`agentic-rag-serverless-api-with-aws`:

* `src/local/main.py`  — standalone Flask server (`token_required`,
  `query_endpoint`);
* `src/src/lambda_function.py` — AWS Lambda handler (`initialize_agent`,
  `run_query`, `lambda_handler`).

External collaborators (SSM parameter store, ChromaDB, the LlamaIndex
agent) are modelled as oracles supplied through environment records.
Python strings are Lean `String`s; Python `str.split(' ')` and the
no-argument `str.split()` are embedded by executable list functions below;
a raised Python exception is an `Except.error` value, so a handler that
lets an exception escape returns `.error`.

A note on fidelity that matters throughout: `lambda_function.py` refers to
the module-level names `CHROMA_COLLECTION_NAME` (line 81),
`OPENAI_EMBEDDING_MODEL_NAME` (86), `OPENAI_API_KEY` (87, 92),
`OPENAI_MODEL_NAME` (91), `VERBOSE` (120) and `FUNCTION_API_TOKEN` (230),
none of which is defined in that module (it defines `CHROMA_COLLECTION`,
`EMBEDDING_MODEL`, `api_key`, `LLM_MODEL`, `auth_token` instead).
Evaluating such a name raises `NameError`.  The embedding keeps this
behaviour: the construction block of `initialize_agent` raises
`NameError` at its first undefined name (line 81), and the token
comparison at line 230 raises `NameError` before comparing.
-/

deriving instance DecidableEq for Except

/-- Python exception values relevant to the embedded code. -/
inductive PyErr where
  | nameError (name : String)
  | indexError
  | exc (msg : String)
  deriving Repr, DecidableEq

/-- Splits a character list at every character satisfying `p`, keeping empty
groups, and returns (first group, remaining groups).  This is the semantics
of Python `str.split(sep)` for a one-character separator when `p` tests for
that separator. -/
def splitAtChar (p : Char → Bool) : List Char → List Char × List (List Char)
  | [] => ([], [])
  | c :: rest =>
    let r := splitAtChar p rest
    if p c then ([], r.1 :: r.2) else (c :: r.1, r.2)

/-- All groups produced by `splitAtChar` (always nonempty as a list). -/
def splitGroups (p : Char → Bool) (l : List Char) : List (List Char) :=
  (splitAtChar p l).1 :: (splitAtChar p l).2

/-- Python `s.split(' ')`: split at each space, keeping empty parts. -/
def pySplitSpaceSep (s : String) : List String :=
  (splitGroups (fun c => c == ' ') s.data).map String.mk

/-- Python `s.split()` (no argument): split at whitespace and drop all
empty parts. -/
def pySplitWhitespace (s : String) : List String :=
  ((splitGroups (fun c => c.isWhitespace) s.data).filter
    (fun g => !g.isEmpty)).map String.mk

/-- Boolean list-prefix test (used to embed Python `str.startswith`). -/
def isPrefixList : List Char → List Char → Bool
  | [], _ => true
  | _ :: _, [] => false
  | p :: ps, c :: cs => (p == c) && isPrefixList ps cs

/-- Python `s.startswith(pre)`. -/
def pyStartsWith (s pre : String) : Bool :=
  isPrefixList pre.data s.data

/-- Python list indexing `l[i]`: `IndexError` when out of bounds. -/
def pyIndex (l : List String) (i : Nat) : Except PyErr String :=
  match l[i]? with
  | some s => .ok s
  | none => .error .indexError

/-- The value returned by `agent.query(...)`: either an object with a
`response` attribute holding the answer text (plus a `str()` form), or an
object without that attribute (a plain string, whose `str()` form is
itself). -/
inductive AgentObj where
  | withResponseAttr (text : String) (strForm : String)
  | plainStr (s : String)
  deriving Repr, DecidableEq

/-- Python `str(obj)` for an agent response object. -/
def pyStr : AgentObj → String
  | .withResponseAttr _ s => s
  | .plainStr s => s

/-! ### Standalone variant: `src/local/main.py` -/

/-- A Flask request as seen by the route: the `Authorization` header and
the outcome of `request.get_json()` (`none` models a request with no JSON
body; field values are modelled as strings, which covers the `query` text
field the code reads). -/
structure FlaskRequest where
  authHeader : Option String
  jsonData : Option (List (String × String))
  deriving Repr, DecidableEq

/-- Environment of the standalone server: the configured secret
(`API_TOKEN`, read from env var `FUNCTION_API_TOKEN` at startup, which
aborts if it is unset/empty) and the external agent as an oracle. -/
structure LocalEnv where
  apiToken : String
  agentQuery : String → Except String AgentObj

/-- An HTTP response of the standalone server: status code plus the JSON
payload produced by `jsonify`. -/
structure HttpResponse where
  status : Nat
  payload : List (String × String)
  deriving Repr, DecidableEq

/-- Request-scoped observation flags: whether the JSON body was parsed and
whether the agent was queried during the request. -/
structure LocalTrace where
  bodyParsed : Bool
  agentQueried : Bool
  deriving Repr, DecidableEq

/-- Token extraction of `token_required` (local/main.py lines 25–30):
`token` stays `None` unless the header is truthy and starts with
`"Bearer "`, in which case it is `auth_header.split(' ')[1]`. -/
def localExtractToken (authHeader : Option String) :
    Except PyErr (Option String) :=
  match authHeader with
  | none => .ok none
  | some h =>
    if h = "" then .ok none
    else if pyStartsWith h "Bearer " then
      match pyIndex (pySplitSpaceSep h) 1 with
      | .ok t => .ok (some t)
      | .error e => .error e
    else .ok none

/-- The accept condition of the standalone auth gate (lines 25–36): a token
was extracted, is truthy, and equals the configured secret. -/
def localAuthorized (apiToken : String) (authHeader : Option String) : Bool :=
  match localExtractToken authHeader with
  | .ok (some t) => if t = "" then false else if t = apiToken then true else false
  | _ => false

/-- The body of `query_endpoint` (local/main.py lines 92–102), reached only
after the auth gate passes. -/
def queryEndpoint (env : LocalEnv) (req : FlaskRequest) :
    Except PyErr HttpResponse × LocalTrace :=
  match req.jsonData with
  | none => (.ok ⟨400, [("error", "Missing query parameter")]⟩, ⟨true, false⟩)
  | some fields =>
    if fields.isEmpty then
      (.ok ⟨400, [("error", "Missing query parameter")]⟩, ⟨true, false⟩)
    else
      match fields.lookup "query" with
      | none => (.ok ⟨400, [("error", "Missing query parameter")]⟩, ⟨true, false⟩)
      | some q =>
        match env.agentQuery q with
        | .ok obj => (.ok ⟨200, [("result", pyStr obj)]⟩, ⟨true, true⟩)
        | .error m => (.ok ⟨500, [("error", m)]⟩, ⟨true, true⟩)

/-- The full `/query` route of the standalone server: `token_required`
(lines 22–40) wrapped around `query_endpoint`. -/
def localQueryRoute (env : LocalEnv) (req : FlaskRequest) :
    Except PyErr HttpResponse × LocalTrace :=
  match localExtractToken req.authHeader with
  | .error e => (.error e, ⟨false, false⟩)
  | .ok none =>
    (.ok ⟨401, [("error", "Unauthorized: Missing token")]⟩, ⟨false, false⟩)
  | .ok (some t) =>
    if t = "" then
      (.ok ⟨401, [("error", "Unauthorized: Missing token")]⟩, ⟨false, false⟩)
    else if t = env.apiToken then
      queryEndpoint env req
    else
      (.ok ⟨401, [("error", "Unauthorized: Invalid token")]⟩, ⟨false, false⟩)

/-! ### Serverless variant: `src/src/lambda_function.py` -/

/-- Outcomes of the external calls made during `initialize_agent`: the two
SSM parameter fetches (lines 36–53) and the ChromaDB client construction
(line 77).  Each can raise. -/
structure SsmEnv where
  apiKeyParam : Except String String
  authTokenParam : Except String String
  chromaClientOk : Except String Unit
  deriving Repr, DecidableEq

/-- Environment of the Lambda module: external-call outcomes plus the agent
oracle (consulted by `run_query`). -/
structure LambdaEnv where
  ssm : SsmEnv
  agentQuery : String → Except String AgentObj

/-- The module-level mutable globals of `lambda_function.py` (line 56–59):
`api_key`, `auth_token` and the `agent` singleton (an opaque handle,
modelled as a number). -/
structure ModuleState where
  apiKey : Option String
  authToken : Option String
  agent : Option Nat
  deriving Repr, DecidableEq

/-- An API Gateway event as read by the handler: `httpMethod`, the two
header spellings the code consults, and the parsed outcome of
`json.loads(event.get('body','{}'))` (the handler as written never reaches
body parsing, see `lambda_handler`). -/
structure LambdaEvent where
  httpMethod : Option String
  headerAuthUpper : Option String
  headerAuthLower : Option String
  body : Except PyErr (List (String × String))
  deriving Repr, DecidableEq

/-- Body of a Lambda proxy response: either the literal empty string or a
JSON object. -/
inductive LBody where
  | emptyStr
  | json (fields : List (String × String))
  deriving Repr, DecidableEq

/-- A Lambda proxy response. -/
structure LambdaResponse where
  statusCode : Nat
  headers : List (String × String)
  body : LBody
  deriving Repr, DecidableEq

/-- Request-scoped observation flags for the Lambda handler:
`constructionEntered` records that `initialize_agent` went past its
early-return (so external construction work was attempted). -/
structure LambdaTrace where
  constructionEntered : Bool
  bodyParsed : Bool
  agentQueried : Bool
  deriving Repr, DecidableEq

/-- Result of one Lambda invocation: the response (or an uncaught
exception), the updated module state, and the trace. -/
structure LambdaResult where
  resp : Except PyErr LambdaResponse
  state : ModuleState
  trace : LambdaTrace
  deriving Repr, DecidableEq

/-- The CORS headers used by the 500-initialization and OPTIONS responses
(lambda_function.py lines 181–186, 197–202). -/
def corsHeaders : List (String × String) :=
  [("Content-Type", "application/json"),
   ("Access-Control-Allow-Origin", "*"),
   ("Access-Control-Allow-Methods", "POST, OPTIONS"),
   ("Access-Control-Allow-Headers", "Content-Type, Authorization")]

/-- Response returned when `initialize_agent` raises (lines 179–191). -/
def initFailureResponse : LambdaResponse :=
  ⟨500, corsHeaders,
   .json [("status", "error"), ("message", "Failed to initialize agent")]⟩

/-- CORS preflight response for OPTIONS (lines 195–204). -/
def corsPreflightResponse : LambdaResponse :=
  ⟨200, corsHeaders, .emptyStr⟩

/-- Response for a method other than POST and OPTIONS (lines 208–212). -/
def methodNotAllowedResponse : LambdaResponse :=
  ⟨405, [("Content-Type", "application/json")],
   .json [("status", "error"), ("message", "Method not allowed")]⟩

/-- Response for a missing/empty Authorization header (lines 220–224). -/
def missingTokenResponse : LambdaResponse :=
  ⟨401, [("Content-Type", "application/json")],
   .json [("status", "error"), ("message", "Missing authentication token")]⟩

/-- The module function `initialize_agent` (lambda_function.py lines
62–126).  If the singleton is set it returns at once.  Otherwise it fetches
the two SSM parameters (assigning the globals as it goes; a fetch failure
re-raises), then enters the construction block, whose first statements are
the ChromaDB client construction (line 77) and, at line 81, an access to
the undefined module name `CHROMA_COLLECTION_NAME`, which raises
`NameError`; the `except` clause logs and re-raises, so the block never
assigns `agent`. -/
def initialize_agent (env : SsmEnv) (st : ModuleState) :
    ModuleState × Except PyErr Unit :=
  match st.agent with
  | some _ => (st, .ok ())
  | none =>
    match env.apiKeyParam with
    | .error m => (st, .error (.exc m))
    | .ok k =>
      match env.authTokenParam with
      | .error m => ({ st with apiKey := some k }, .error (.exc m))
      | .ok t =>
        let st1 : ModuleState := { st with apiKey := some k, authToken := some t }
        match env.chromaClientOk with
        | .error m => (st1, .error (.exc m))
        | .ok _ => (st1, .error (.nameError "CHROMA_COLLECTION_NAME"))

/-- The module function `run_query` (lambda_function.py lines 129–159): it
catches every exception of the agent call and converts it into an error
dict, otherwise it normalizes the response (`response.response` when the
attribute exists, else `str(response)`) into a success dict. -/
def run_query (agentQuery : String → Except String AgentObj) (q : String) :
    List (String × String) :=
  match agentQuery q with
  | .ok obj =>
    let result := match obj with
      | .withResponseAttr text _ => text
      | .plainStr s => s
    [("result", result), ("status", "success")]
  | .error m => [("error", m), ("status", "error")]

/-- The effective Authorization header (line 216):
`headers.get('Authorization') or headers.get('authorization')` — the
lowercase spelling is used when the capitalized one is absent or falsy. -/
def authHeaderOf (e : LambdaEvent) : Option String :=
  match e.headerAuthUpper with
  | some s => if s = "" then e.headerAuthLower else some s
  | none => e.headerAuthLower

/-- Last element of the nonempty list `t :: ts` (Python `l[-1]`). -/
def lastOf (t : String) (ts : List String) : String :=
  match ts with
  | [] => t
  | u :: us => lastOf u us

/-- Token extraction of the Lambda handler (lines 227–228):
`token_parts = auth_header.split()`; with more than one part the token is
`token_parts[-1]`, otherwise `token_parts[0]` — which raises `IndexError`
when the split of a whitespace-only header is empty (`token_parts[-1]`
and `token_parts[0]` agree on singleton lists, so taking the last element
of any nonempty split is faithful). -/
def extractToken (h : String) : Except PyErr String :=
  match pySplitWhitespace h with
  | [] => .error .indexError
  | t :: ts => .ok (lastOf t ts)

/-- The Lambda handler `lambda_handler` (lambda_function.py lines 162–279).
Control flow, in source order: call `initialize_agent` (500 on failure),
OPTIONS preflight, 405 for non-POST, 401 for a missing/falsy Authorization
header, token extraction, and then — at line 230 — the comparison
`received_token != FUNCTION_API_TOKEN`, which evaluates the undefined
module name `FUNCTION_API_TOKEN` and therefore raises `NameError` outside
any `try`, so everything below line 230 (body parsing, the missing-query
400, `run_query`, the 200/500 envelopes) is unreachable. -/
def lambda_handler (env : LambdaEnv) (st : ModuleState) (event : LambdaEvent) :
    LambdaResult :=
  let st1 := (initialize_agent env.ssm st).1
  let tr : LambdaTrace := ⟨st.agent.isNone, false, false⟩
  match (initialize_agent env.ssm st).2 with
  | .error _ => ⟨.ok initFailureResponse, st1, tr⟩
  | .ok _ =>
    if event.httpMethod = some "OPTIONS" then
      ⟨.ok corsPreflightResponse, st1, tr⟩
    else if event.httpMethod ≠ some "POST" then
      ⟨.ok methodNotAllowedResponse, st1, tr⟩
    else
      match authHeaderOf event with
      | none => ⟨.ok missingTokenResponse, st1, tr⟩
      | some h =>
        if h = "" then ⟨.ok missingTokenResponse, st1, tr⟩
        else
          match extractToken h with
          | .error e => ⟨.error e, st1, tr⟩
          | .ok _ => ⟨.error (.nameError "FUNCTION_API_TOKEN"), st1, tr⟩

/-! ### Concrete fixtures used by counterexamples and witnesses -/

/-- Stub agent returning a fixed plain-string answer. -/
def stubAgent : String → Except String AgentObj :=
  fun _ => .ok (.plainStr "Ada was a mathematician.")

/-- Stub agent that raises on every query. -/
def failAgent : String → Except String AgentObj :=
  fun _ => .error "upstream boom"

/-- Standalone environment with secret `secret123` and the stub agent. -/
def localEnvOk : LocalEnv := ⟨"secret123", stubAgent⟩

/-- SSM oracles that all succeed. -/
def ssmOk : SsmEnv := ⟨.ok "sk-key", .ok "secret123", .ok ()⟩

/-- SSM oracle whose API-key fetch raises. -/
def ssmFail : SsmEnv := ⟨.error "ssm down", .ok "secret123", .ok ()⟩

/-- Lambda environment with healthy externals and the stub agent. -/
def envOk : LambdaEnv := ⟨ssmOk, stubAgent⟩

/-- Cold module state: nothing initialized. -/
def freshState : ModuleState := ⟨none, none, none⟩

/-- A module state in which the agent singleton is already present (no real
execution of this code produces one, since construction always raises; it
is used to exercise the branches behind the initialization guard). -/
def readyState : ModuleState := ⟨some "sk-key", some "secret123", some 0⟩

/-- POST event with the correct bearer token and a nonempty query. -/
def authorizedPostEvent : LambdaEvent :=
  ⟨some "POST", some "Bearer secret123", none, .ok [("query", "Who is Ada?")]⟩

/-- POST event with no Authorization header. -/
def noAuthPostEvent : LambdaEvent :=
  ⟨some "POST", none, none, .ok [("query", "Who is Ada?")]⟩

/-- OPTIONS event. -/
def optionsEvent : LambdaEvent := ⟨some "OPTIONS", none, none, .ok []⟩

/-- GET event. -/
def getEvent : LambdaEvent := ⟨some "GET", none, none, .ok []⟩

/-- POST event whose Authorization header is a single space. -/
def wsAuthEvent : LambdaEvent := ⟨some "POST", some " ", none, .ok []⟩

/-! ### Helper lemmas (shared across the claim theorems) -/

example : pySplitWhitespace " " = [] := by decide
example : extractToken "Bearer tok" = .ok "tok" := by decide
example : extractToken "tok" = .ok "tok" := by decide
example : extractToken " " = .error .indexError := by decide
example : pySplitSpaceSep "Bearer  x" = ["Bearer", "", "x"] := by decide
example : localExtractToken (some "Bearer secret123") = .ok (some "secret123") := by decide
example : localExtractToken (some "secret123") = .ok none := by decide

lemma splitAtChar_cons (p : Char → Bool) (c : Char) (l : List Char) :
    splitAtChar p (c :: l) =
      if p c then ([], (splitAtChar p l).1 :: (splitAtChar p l).2)
      else (c :: (splitAtChar p l).1, (splitAtChar p l).2) := rfl

lemma splitAtChar_no_sep (p : Char → Bool) (l : List Char)
    (h : ∀ c ∈ l, p c = false) : splitAtChar p l = (l, []) := by
  induction l with
  | nil => rfl
  | cons c t ih =>
    have hc : p c = false := h c (List.mem_cons_self c t)
    have ht : ∀ x ∈ t, p x = false := fun x hx => h x (List.mem_cons_of_mem c hx)
    simp [splitAtChar_cons, hc, ih ht]

lemma splitAtChar_pre_sep (p : Char → Bool) (pre : List Char) (sep : Char)
    (t : List Char) (hpre : ∀ c ∈ pre, p c = false) (hs : p sep = true) :
    splitAtChar p (pre ++ sep :: t) =
      (pre, (splitAtChar p t).1 :: (splitAtChar p t).2) := by
  induction pre with
  | nil => simp [splitAtChar_cons, hs]
  | cons c cs ih =>
    have hc : p c = false := hpre c (List.mem_cons_self c cs)
    have hcs : ∀ x ∈ cs, p x = false := fun x hx => hpre x (List.mem_cons_of_mem c hx)
    simp [List.cons_append, splitAtChar_cons, hc, ih hcs]

lemma isPrefixList_exists (pre l : List Char) (h : isPrefixList pre l = true) :
    ∃ t, l = pre ++ t := by
  induction pre generalizing l with
  | nil => exact ⟨l, rfl⟩
  | cons p ps ih =>
    cases l with
    | nil => simp [isPrefixList] at h
    | cons c cs =>
      simp only [isPrefixList, Bool.and_eq_true, beq_iff_eq] at h
      obtain ⟨rfl, h2⟩ := h
      obtain ⟨t, ht⟩ := ih cs h2
      exact ⟨t, by rw [ht]; rfl⟩

lemma pyStartsWith_exists (s pre : String) (h : pyStartsWith s pre = true) :
    ∃ t, s.data = pre.data ++ t :=
  isPrefixList_exists pre.data s.data h

lemma mk_data (s : String) : String.mk s.data = s := rfl

lemma bearerSpace_data : "Bearer ".data = "Bearer".data ++ [' '] := by decide

lemma pySplitSpaceSep_of_bearer (h : String)
    (hp : pyStartsWith h "Bearer " = true) :
    ∃ rest : List Char,
      pySplitSpaceSep h =
        "Bearer" :: String.mk (splitAtChar (fun c => c == ' ') rest).1 ::
          ((splitAtChar (fun c => c == ' ') rest).2).map String.mk := by
  obtain ⟨t, ht⟩ := pyStartsWith_exists h "Bearer " hp
  refine ⟨t, ?_⟩
  unfold pySplitSpaceSep splitGroups
  rw [ht, bearerSpace_data, List.append_assoc]
  simp only [List.singleton_append]
  rw [splitAtChar_pre_sep _ _ _ _ (by decide) (by decide)]
  rfl

lemma localExtractToken_total (ah : Option String) :
    ∃ tok, localExtractToken ah = .ok tok := by
  unfold localExtractToken
  cases ah with
  | none => exact ⟨none, rfl⟩
  | some h =>
    by_cases he : h = ""
    · exact ⟨none, by simp [he]⟩
    · by_cases hb : pyStartsWith h "Bearer " = true
      · obtain ⟨rest, hr⟩ := pySplitSpaceSep_of_bearer h hb
        refine ⟨some (String.mk (splitAtChar (fun c => c == ' ') rest).1), ?_⟩
        simp [he, hb, hr, pyIndex]
      · exact ⟨none, by simp [he, hb]⟩

lemma localQueryRoute_unauthorized (env : LocalEnv) (req : FlaskRequest)
    (h : localAuthorized env.apiToken req.authHeader = false) :
    ∃ msg, localQueryRoute env req =
      (.ok ⟨401, [("error", msg)]⟩, ⟨false, false⟩) := by
  obtain ⟨tok, htok⟩ := localExtractToken_total req.authHeader
  unfold localAuthorized at h
  rw [htok] at h
  unfold localQueryRoute
  rw [htok]
  cases tok with
  | none => exact ⟨"Unauthorized: Missing token", rfl⟩
  | some t =>
    by_cases ht0 : t = ""
    · exact ⟨"Unauthorized: Missing token", by simp [ht0]⟩
    · by_cases hte : t = env.apiToken
      · exfalso
        subst hte
        simp [ht0] at h
      · exact ⟨"Unauthorized: Invalid token", by simp [ht0, hte]⟩

lemma localQueryRoute_authorized (env : LocalEnv) (req : FlaskRequest)
    (h : localAuthorized env.apiToken req.authHeader = true) :
    localQueryRoute env req = queryEndpoint env req := by
  obtain ⟨tok, htok⟩ := localExtractToken_total req.authHeader
  unfold localAuthorized at h
  rw [htok] at h
  unfold localQueryRoute
  rw [htok]
  cases tok with
  | none => simp at h
  | some t =>
    by_cases ht0 : t = ""
    · simp [ht0] at h
    · by_cases hte : t = env.apiToken
      · subst hte
        simp [ht0]
      · simp [ht0, hte] at h

lemma queryEndpoint_missing (env : LocalEnv) (req : FlaskRequest)
    (h : req.jsonData = none ∨ req.jsonData = some [] ∨
      ∃ fs, req.jsonData = some fs ∧ fs.lookup "query" = none) :
    queryEndpoint env req =
      (.ok ⟨400, [("error", "Missing query parameter")]⟩, ⟨true, false⟩) := by
  unfold queryEndpoint
  rcases h with h | h | ⟨fs, hfs, hq⟩
  · rw [h]
  · rw [h]; rfl
  · rw [hfs]
    cases fs with
    | nil => rfl
    | cons kv rest => simp [hq]

lemma queryEndpoint_found (env : LocalEnv) (req : FlaskRequest)
    (fs : List (String × String)) (q : String)
    (hfs : req.jsonData = some fs) (hq : fs.lookup "query" = some q) :
    queryEndpoint env req =
      (match env.agentQuery q with
       | .ok obj => (.ok ⟨200, [("result", pyStr obj)]⟩, ⟨true, true⟩)
       | .error m => (.ok ⟨500, [("error", m)]⟩, ⟨true, true⟩)) := by
  unfold queryEndpoint
  rw [hfs]
  cases fs with
  | nil => simp at hq
  | cons kv rest => simp [hq]

lemma initialize_agent_of_some (env : SsmEnv) (st : ModuleState) (a : Nat)
    (h : st.agent = some a) : initialize_agent env st = (st, .ok ()) := by
  unfold initialize_agent
  rw [h]

lemma initialize_agent_err_of_none (env : SsmEnv) (st : ModuleState)
    (h : st.agent = none) : ∃ e, (initialize_agent env st).2 = .error e := by
  unfold initialize_agent
  rw [h]
  cases hk : env.apiKeyParam with
  | error m => exact ⟨.exc m, rfl⟩
  | ok k =>
    cases ht : env.authTokenParam with
    | error m => exact ⟨.exc m, rfl⟩
    | ok t =>
      cases hc : env.chromaClientOk with
      | error m => exact ⟨.exc m, rfl⟩
      | ok u => exact ⟨.nameError "CHROMA_COLLECTION_NAME", rfl⟩

lemma initialize_agent_agent (env : SsmEnv) (st : ModuleState) :
    (initialize_agent env st).1.agent = st.agent := by
  unfold initialize_agent
  cases ha : st.agent with
  | some a => exact ha
  | none =>
    cases hk : env.apiKeyParam with
    | error m => exact ha
    | ok k =>
      cases ht : env.authTokenParam with
      | error m => rfl
      | ok t =>
        cases hc : env.chromaClientOk with
        | error m => rfl
        | ok u => rfl

lemma lambda_handler_agent_none (env : LambdaEnv) (st : ModuleState)
    (ev : LambdaEvent) (h : st.agent = none) :
    lambda_handler env st ev =
      ⟨.ok initFailureResponse, (initialize_agent env.ssm st).1,
        ⟨true, false, false⟩⟩ := by
  obtain ⟨e, he⟩ := initialize_agent_err_of_none env.ssm st h
  unfold lambda_handler
  rw [he, h]
  rfl

lemma data_append (a b : String) : (a ++ b).data = a.data ++ b.data := rfl

lemma data_ne_nil (t : String) (h : t ≠ "") : t.data ≠ [] := by
  intro hd
  apply h
  rw [← mk_data t, hd]

lemma not_isEmpty_of_ne_nil {α : Type} (l : List α) (h : l ≠ []) :
    l.isEmpty = false := by
  cases l with
  | nil => exact absurd rfl h
  | cons a t => rfl

lemma isPrefixList_append (l r : List Char) : isPrefixList l (l ++ r) = true := by
  induction l with
  | nil => rfl
  | cons c cs ih => simp [isPrefixList, ih]

lemma bearer_append_ne_empty (t : String) : "Bearer " ++ t ≠ "" := by
  intro h
  have hd : ("Bearer " ++ t).data.length = 0 := by rw [h]; rfl
  rw [data_append, List.length_append] at hd
  have h7 : "Bearer ".data.length = 7 := rfl
  rw [h7] at hd
  omega

lemma pySplitWhitespace_bearer (t : String) (ht : t ≠ "")
    (hws : ∀ c ∈ t.data, c.isWhitespace = false) :
    pySplitWhitespace ("Bearer " ++ t) = ["Bearer", t] := by
  unfold pySplitWhitespace splitGroups
  rw [data_append, bearerSpace_data, List.append_assoc]
  simp only [List.singleton_append]
  rw [splitAtChar_pre_sep _ _ _ _ (by decide) (by decide)]
  rw [splitAtChar_no_sep _ _ hws]
  have h1 : ("Bearer".data).isEmpty = false := rfl
  have h2 : (t.data).isEmpty = false := not_isEmpty_of_ne_nil t.data (data_ne_nil t ht)
  simp [List.filter, h1, h2, mk_data]

lemma pySplitWhitespace_single (t : String) (ht : t ≠ "")
    (hws : ∀ c ∈ t.data, c.isWhitespace = false) :
    pySplitWhitespace t = [t] := by
  unfold pySplitWhitespace splitGroups
  rw [splitAtChar_no_sep _ _ hws]
  have h2 : (t.data).isEmpty = false := not_isEmpty_of_ne_nil t.data (data_ne_nil t ht)
  simp [List.filter, h2, mk_data]

lemma pySplitSpaceSep_bearer_nospace (t : String)
    (hsp : ∀ c ∈ t.data, (c == ' ') = false) :
    pySplitSpaceSep ("Bearer " ++ t) = ["Bearer", t] := by
  unfold pySplitSpaceSep splitGroups
  rw [data_append, bearerSpace_data, List.append_assoc]
  simp only [List.singleton_append]
  rw [splitAtChar_pre_sep _ _ _ _ (by decide) (by decide)]
  rw [splitAtChar_no_sep _ _ hsp]
  simp [mk_data]

lemma localExtractToken_bearer (t : String)
    (hsp : ∀ c ∈ t.data, (c == ' ') = false) :
    localExtractToken (some ("Bearer " ++ t)) = .ok (some t) := by
  have hstep : localExtractToken (some ("Bearer " ++ t)) =
      (if ("Bearer " ++ t) = "" then Except.ok none
       else if pyStartsWith ("Bearer " ++ t) "Bearer " then
         (match pyIndex (pySplitSpaceSep ("Bearer " ++ t)) 1 with
          | .ok tok => Except.ok (some tok)
          | .error e => Except.error e)
       else Except.ok none) := rfl
  have hbw : pyStartsWith ("Bearer " ++ t) "Bearer " = true := by
    unfold pyStartsWith
    rw [data_append]
    exact isPrefixList_append _ _
  rw [hstep, if_neg (bearer_append_ne_empty t), if_pos hbw,
    pySplitSpaceSep_bearer_nospace t hsp]
  rfl

lemma queryEndpoint_ok (env : LocalEnv) (req : FlaskRequest) :
    ∃ r, (queryEndpoint env req).1 = .ok r := by
  cases hj : req.jsonData with
  | none => exact ⟨_, by rw [queryEndpoint_missing env req (Or.inl hj)]⟩
  | some fs =>
    cases hq : fs.lookup "query" with
    | none =>
      cases fs with
      | nil =>
        exact ⟨_, by rw [queryEndpoint_missing env req (Or.inr (Or.inl hj))]⟩
      | cons kv rest =>
        exact ⟨_, by
          rw [queryEndpoint_missing env req (Or.inr (Or.inr ⟨_, hj, hq⟩))]⟩
    | some q =>
      rw [queryEndpoint_found env req fs q hj hq]
      cases ha : env.agentQuery q with
      | ok obj => exact ⟨_, rfl⟩
      | error m => exact ⟨_, rfl⟩

/-! ### Claim theorems -/

/-- C1 counterexample: a cold-start serverless POST request without an
`Authorization` header does not receive an auth failure — the handler
first attempts agent initialization (entering the construction path, so
SSM fetches and client construction run before any auth decision) and
returns the 500 initialization-failure response. -/
theorem c1_counterexample :
    (lambda_handler envOk freshState noAuthPostEvent).resp
        = .ok initFailureResponse ∧
    initFailureResponse.statusCode = 500 ∧
    (lambda_handler envOk freshState noAuthPostEvent).trace.constructionEntered
        = true := by
  exact ⟨rfl, rfl, rfl⟩

/-- C1 (corrected): in the standalone variant the auth decision precedes
everything: any request the gate rejects gets a 401 with the body never
parsed and the agent never queried.  In the serverless variant agent
initialization is attempted before the auth check; from any reachable
module state (agent singleton absent) every request — authenticated or
not — receives the 500 initialization-failure response, and the body is
never parsed and the agent never queried. -/
theorem c1_auth_gate_ordering :
    (∀ (env : LocalEnv) (req : FlaskRequest),
      localAuthorized env.apiToken req.authHeader = false →
      ∃ msg, localQueryRoute env req =
        (.ok ⟨401, [("error", msg)]⟩, ⟨false, false⟩)) ∧
    (∀ (env : LambdaEnv) (st : ModuleState) (ev : LambdaEvent),
      st.agent = none →
      (lambda_handler env st ev).resp = .ok initFailureResponse ∧
      (lambda_handler env st ev).trace.constructionEntered = true ∧
      (lambda_handler env st ev).trace.bodyParsed = false ∧
      (lambda_handler env st ev).trace.agentQueried = false) := by
  constructor
  · exact localQueryRoute_unauthorized
  · intro env st ev h
    rw [lambda_handler_agent_none env st ev h]
    exact ⟨rfl, rfl, rfl, rfl⟩

/-- C1 witness: the corrected statement applied at concrete inputs — a
standalone request with no header gets the 401, and the cold-start
serverless request gets the 500 initialization failure. -/
theorem c1_witness :
    (∃ msg, localQueryRoute localEnvOk ⟨none, some [("query", "Who is Ada?")]⟩ =
      (.ok ⟨401, [("error", msg)]⟩, ⟨false, false⟩)) ∧
    (lambda_handler envOk freshState noAuthPostEvent).resp
        = .ok initFailureResponse := by
  constructor
  · exact c1_auth_gate_ordering.1 localEnvOk
      ⟨none, some [("query", "Who is Ada?")]⟩ (by decide)
  · exact (c1_auth_gate_ordering.2 envOk freshState noAuthPostEvent rfl).1

/-- C2 (code_bug): evaluation of both variants at the success scenario.
The standalone variant behaves as the claim says: correct token plus
nonempty query yields 200 with the agent text verbatim, and `run_query`
normalizes both agent response shapes as described.  But the serverless
handler can never produce the 200 envelope: from a cold start the request
gets the 500 initialization-failure response (the construction block
raises `NameError` on the undefined `CHROMA_COLLECTION_NAME`), and even
from a state whose agent singleton is present, the token comparison at
line 230 raises `NameError` on the undefined `FUNCTION_API_TOKEN`. -/
theorem c2_success_envelope_eval :
    localQueryRoute localEnvOk
        ⟨some "Bearer secret123", some [("query", "Who is Ada?")]⟩ =
      (.ok ⟨200, [("result", "Ada was a mathematician.")]⟩, ⟨true, true⟩) ∧
    run_query stubAgent "Who is Ada?" =
      [("result", "Ada was a mathematician."), ("status", "success")] ∧
    run_query (fun _ => .ok (.withResponseAttr "structured answer" "other"))
        "Who is Ada?" =
      [("result", "structured answer"), ("status", "success")] ∧
    (lambda_handler envOk freshState authorizedPostEvent).resp
        = .ok initFailureResponse ∧
    (lambda_handler envOk readyState authorizedPostEvent).resp
        = .error (.nameError "FUNCTION_API_TOKEN") := by
  exact ⟨by decide, rfl, rfl, rfl, rfl⟩

/-- C3 counterexample: in the standalone variant the bare form of the
correct credential is rejected as a missing token (401), so the gate does
not accept both header forms in both variants. -/
theorem c3_counterexample :
    localQueryRoute localEnvOk ⟨some "secret123", some [("query", "Who is Ada?")]⟩ =
      (.ok ⟨401, [("error", "Unauthorized: Missing token")]⟩, ⟨false, false⟩) := by
  decide

/-- C3 (corrected): the serverless extraction step accepts both forms —
for a nonempty whitespace-free token it yields the token from both
`"Bearer <token>"` and the bare `"<token>"` header.  The standalone
variant accepts only the `"Bearer <token>"` form: with that header it
proceeds to the dispatcher, while the bare correct token is rejected as
missing. -/
theorem c3_token_forms :
    (∀ t : String, t ≠ "" → (∀ c ∈ t.data, c.isWhitespace = false) →
      extractToken ("Bearer " ++ t) = .ok t ∧ extractToken t = .ok t) ∧
    (∀ (env : LocalEnv) (req : FlaskRequest),
      req.authHeader = some ("Bearer " ++ env.apiToken) →
      env.apiToken ≠ "" → (∀ c ∈ env.apiToken.data, (c == ' ') = false) →
      localQueryRoute env req = queryEndpoint env req) ∧
    (∀ (env : LocalEnv) (req : FlaskRequest),
      req.authHeader = some env.apiToken →
      env.apiToken ≠ "" → pyStartsWith env.apiToken "Bearer " = false →
      localQueryRoute env req =
        (.ok ⟨401, [("error", "Unauthorized: Missing token")]⟩,
          ⟨false, false⟩)) := by
  refine ⟨?_, ?_, ?_⟩
  · intro t ht hws
    constructor
    · rw [extractToken, pySplitWhitespace_bearer t ht hws]
      rfl
    · rw [extractToken, pySplitWhitespace_single t ht hws]
      rfl
  · intro env req hreq h0 hsp
    apply localQueryRoute_authorized
    rw [hreq]
    unfold localAuthorized
    rw [localExtractToken_bearer env.apiToken hsp]
    simp [h0]
  · intro env req hreq h0 hb
    have hex : localExtractToken req.authHeader = .ok none := by
      rw [hreq]
      unfold localExtractToken
      simp [h0, hb]
    unfold localQueryRoute
    rw [hex]

/-- C3 witness: the corrected statement applied at the concrete secret
`secret123` for all three conjuncts. -/
theorem c3_witness :
    (extractToken ("Bearer " ++ "secret123") = .ok "secret123" ∧
      extractToken "secret123" = .ok "secret123") ∧
    localQueryRoute localEnvOk
        ⟨some ("Bearer " ++ localEnvOk.apiToken), some [("query", "q")]⟩ =
      queryEndpoint localEnvOk
        ⟨some ("Bearer " ++ localEnvOk.apiToken), some [("query", "q")]⟩ ∧
    localQueryRoute localEnvOk
        ⟨some localEnvOk.apiToken, some [("query", "q")]⟩ =
      (.ok ⟨401, [("error", "Unauthorized: Missing token")]⟩,
        ⟨false, false⟩) := by
  refine ⟨?_, ?_, ?_⟩
  · exact c3_token_forms.1 "secret123" (by decide) (by decide)
  · exact c3_token_forms.2.1 localEnvOk
      ⟨some ("Bearer " ++ localEnvOk.apiToken), some [("query", "q")]⟩
      rfl (by decide) (by decide)
  · exact c3_token_forms.2.2 localEnvOk
      ⟨some localEnvOk.apiToken, some [("query", "q")]⟩
      rfl (by decide) (by decide)

/-- C4 counterexample: in the standalone variant a wrong supplied token is
answered with status 401, not the claimed 403 Forbidden. -/
theorem c4_counterexample :
    localQueryRoute localEnvOk
        ⟨some "Bearer wrongtoken", some [("query", "Who is Ada?")]⟩ =
      (.ok ⟨401, [("error", "Unauthorized: Invalid token")]⟩,
        ⟨false, false⟩) := by
  decide

/-- C4 (corrected): the standalone variant answers 401 in both failure
modes — missing header and wrong token.  In the serverless variant, when
the `initialize_agent` call returns normally (agent singleton present), a
POST without a usable Authorization header gets the 401 response; but a
supplied token is never answered with 403, because the comparison at line
230 evaluates the undefined name `FUNCTION_API_TOKEN` and the handler
raises `NameError` instead. -/
theorem c4_failure_modes :
    (∀ (env : LocalEnv) (req : FlaskRequest), req.authHeader = none →
      localQueryRoute env req =
        (.ok ⟨401, [("error", "Unauthorized: Missing token")]⟩,
          ⟨false, false⟩)) ∧
    (∀ (env : LocalEnv) (req : FlaskRequest) (w : String),
      req.authHeader = some ("Bearer " ++ w) → w ≠ "" →
      (∀ c ∈ w.data, (c == ' ') = false) → w ≠ env.apiToken →
      localQueryRoute env req =
        (.ok ⟨401, [("error", "Unauthorized: Invalid token")]⟩,
          ⟨false, false⟩)) ∧
    (∀ (env : LambdaEnv) (st : ModuleState) (ev : LambdaEvent) (a : Nat),
      st.agent = some a → ev.httpMethod = some "POST" →
      authHeaderOf ev = none →
      (lambda_handler env st ev).resp = .ok missingTokenResponse) ∧
    (∀ (env : LambdaEnv) (st : ModuleState) (ev : LambdaEvent)
        (a : Nat) (hdr tok : String),
      st.agent = some a → ev.httpMethod = some "POST" →
      authHeaderOf ev = some hdr → hdr ≠ "" → extractToken hdr = .ok tok →
      (lambda_handler env st ev).resp =
        .error (.nameError "FUNCTION_API_TOKEN")) := by
  refine ⟨?_, ?_, ?_, ?_⟩
  · intro env req hreq
    unfold localQueryRoute
    rw [hreq]
    rfl
  · intro env req w hreq hw0 hsp hwne
    unfold localQueryRoute
    rw [hreq, localExtractToken_bearer w hsp]
    simp [hw0, hwne]
  · intro env st ev a hst hm hauth
    unfold lambda_handler
    rw [initialize_agent_of_some env.ssm st a hst, hm, hauth]
    rfl
  · intro env st ev a hdr tok hst hm hauth hne hext
    unfold lambda_handler
    rw [initialize_agent_of_some env.ssm st a hst, hm, hauth]
    simp [hne, hext]

/-- C4 witness: the corrected statement applied at concrete requests for
all four conjuncts. -/
theorem c4_witness :
    localQueryRoute localEnvOk ⟨none, some [("query", "q")]⟩ =
      (.ok ⟨401, [("error", "Unauthorized: Missing token")]⟩,
        ⟨false, false⟩) ∧
    localQueryRoute localEnvOk
        ⟨some ("Bearer " ++ "wrongtoken"), some [("query", "q")]⟩ =
      (.ok ⟨401, [("error", "Unauthorized: Invalid token")]⟩,
        ⟨false, false⟩) ∧
    (lambda_handler envOk readyState noAuthPostEvent).resp
        = .ok missingTokenResponse ∧
    (lambda_handler envOk readyState authorizedPostEvent).resp
        = .error (.nameError "FUNCTION_API_TOKEN") := by
  refine ⟨?_, ?_, ?_, ?_⟩
  · exact c4_failure_modes.1 localEnvOk ⟨none, some [("query", "q")]⟩ rfl
  · exact c4_failure_modes.2.1 localEnvOk
      ⟨some ("Bearer " ++ "wrongtoken"), some [("query", "q")]⟩ "wrongtoken"
      rfl (by decide) (by decide) (by decide)
  · exact c4_failure_modes.2.2.1 envOk readyState noAuthPostEvent 0
      rfl rfl rfl
  · exact c4_failure_modes.2.2.2 envOk readyState authorizedPostEvent 0
      "Bearer secret123" "secret123" rfl rfl rfl (by decide) (by decide)

/-- C5 counterexample: in the standalone variant an authenticated request
whose `query` field is present but empty is not rejected with 400 — the
empty string passes the `'query' not in data` check, the agent is queried
and the stubbed answer is returned with 200. -/
theorem c5_counterexample :
    localQueryRoute localEnvOk ⟨some "Bearer secret123", some [("query", "")]⟩ =
      (.ok ⟨200, [("result", "Ada was a mathematician.")]⟩, ⟨true, true⟩) := by
  decide

/-- C5 (corrected): in the standalone variant an authenticated request
whose body lacks the `query` key (no JSON data, empty object, or key
absent) gets 400 with the missing-query message and the agent is not
queried; but a present-and-empty `query` value passes validation and the
agent is queried.  With an invalid token the auth failure (401) takes
precedence over the 400.  In the serverless variant the missing-query
check is unreachable: from any reachable module state every request gets
the 500 initialization-failure response. -/
theorem c5_missing_query :
    (∀ (env : LocalEnv) (req : FlaskRequest),
      localAuthorized env.apiToken req.authHeader = true →
      (req.jsonData = none ∨ req.jsonData = some [] ∨
        ∃ fs, req.jsonData = some fs ∧ fs.lookup "query" = none) →
      localQueryRoute env req =
        (.ok ⟨400, [("error", "Missing query parameter")]⟩, ⟨true, false⟩)) ∧
    (∀ (env : LocalEnv) (req : FlaskRequest) (fs : List (String × String)),
      localAuthorized env.apiToken req.authHeader = true →
      req.jsonData = some fs → fs.lookup "query" = some "" →
      (localQueryRoute env req).2.agentQueried = true) ∧
    (∀ (env : LocalEnv) (req : FlaskRequest),
      localAuthorized env.apiToken req.authHeader = false →
      ∃ msg, localQueryRoute env req =
        (.ok ⟨401, [("error", msg)]⟩, ⟨false, false⟩)) ∧
    (∀ (env : LambdaEnv) (st : ModuleState) (ev : LambdaEvent),
      st.agent = none →
      (lambda_handler env st ev).resp = .ok initFailureResponse) := by
  refine ⟨?_, ?_, ?_, ?_⟩
  · intro env req hauth hmiss
    rw [localQueryRoute_authorized env req hauth]
    exact queryEndpoint_missing env req hmiss
  · intro env req fs hauth hfs hq
    rw [localQueryRoute_authorized env req hauth,
      queryEndpoint_found env req fs "" hfs hq]
    cases ha : env.agentQuery "" with
    | ok obj => rfl
    | error m => rfl
  · intro env req hauth
    exact localQueryRoute_unauthorized env req hauth
  · intro env st ev h
    rw [lambda_handler_agent_none env st ev h]

/-- C5 witness: the corrected statement applied at concrete requests for
all four conjuncts. -/
theorem c5_witness :
    localQueryRoute localEnvOk ⟨some "Bearer secret123", some []⟩ =
      (.ok ⟨400, [("error", "Missing query parameter")]⟩, ⟨true, false⟩) ∧
    (localQueryRoute localEnvOk
        ⟨some "Bearer secret123", some [("query", "")]⟩).2.agentQueried
      = true ∧
    (∃ msg, localQueryRoute localEnvOk
        ⟨some "Bearer wrongtoken", some []⟩ =
      (.ok ⟨401, [("error", msg)]⟩, ⟨false, false⟩)) ∧
    (lambda_handler envOk freshState noAuthPostEvent).resp
        = .ok initFailureResponse := by
  refine ⟨?_, ?_, ?_, ?_⟩
  · exact c5_missing_query.1 localEnvOk ⟨some "Bearer secret123", some []⟩
      (by decide) (Or.inr (Or.inl rfl))
  · exact c5_missing_query.2.1 localEnvOk
      ⟨some "Bearer secret123", some [("query", "")]⟩ [("query", "")]
      (by decide) rfl (by decide)
  · exact c5_missing_query.2.2.1 localEnvOk
      ⟨some "Bearer wrongtoken", some []⟩ (by decide)
  · exact c5_missing_query.2.2.2 envOk freshState noAuthPostEvent rfl

/-- C6 (confirmed): exceptions of the agent call never cross the handler
boundary.  In the standalone variant an authenticated request whose body
carries a `query` field gets, when the agent raises, the 500 envelope
carrying the error text, with no exception escaping.  In the serverless
variant `run_query` (lines 138–159) converts any agent exception into the
error dict, the handler result does not depend on the agent oracle at all
(the agent is never consulted, since every request fails initialization
first), and from any reachable module state the response is a returned 500
envelope, not a raised exception. -/
theorem c6_agent_exceptions_contained :
    (∀ (env : LocalEnv) (req : FlaskRequest) (fs : List (String × String))
        (q m : String),
      localAuthorized env.apiToken req.authHeader = true →
      req.jsonData = some fs → fs.lookup "query" = some q →
      env.agentQuery q = .error m →
      localQueryRoute env req = (.ok ⟨500, [("error", m)]⟩, ⟨true, true⟩)) ∧
    (∀ (aq : String → Except String AgentObj) (q m : String),
      aq q = .error m → run_query aq q = [("error", m), ("status", "error")]) ∧
    (∀ (ssm : SsmEnv) (aq aq2 : String → Except String AgentObj)
        (st : ModuleState) (ev : LambdaEvent),
      lambda_handler ⟨ssm, aq⟩ st ev = lambda_handler ⟨ssm, aq2⟩ st ev) ∧
    (∀ (env : LambdaEnv) (st : ModuleState) (ev : LambdaEvent),
      st.agent = none →
      ∃ r, (lambda_handler env st ev).resp = .ok r ∧ r.statusCode = 500) := by
  refine ⟨?_, ?_, ?_, ?_⟩
  · intro env req fs q m hauth hfs hq hagent
    rw [localQueryRoute_authorized env req hauth,
      queryEndpoint_found env req fs q hfs hq, hagent]
  · intro aq q m h
    unfold run_query
    rw [h]
  · intro ssm aq aq2 st ev
    rfl
  · intro env st ev h
    exact ⟨initFailureResponse, by rw [lambda_handler_agent_none env st ev h],
      rfl⟩

/-- C6 witness: the confirmed statement applied at concrete inputs — a
raising agent yields the standalone 500 envelope and the converted
`run_query` dict, and the cold-start serverless response is a returned 500
envelope. -/
theorem c6_witness :
    localQueryRoute ⟨"secret123", failAgent⟩
        ⟨some "Bearer secret123", some [("query", "Who is Ada?")]⟩ =
      (.ok ⟨500, [("error", "upstream boom")]⟩, ⟨true, true⟩) ∧
    run_query failAgent "Who is Ada?" =
      [("error", "upstream boom"), ("status", "error")] ∧
    (∃ r, (lambda_handler ⟨ssmOk, failAgent⟩ freshState
        authorizedPostEvent).resp = .ok r ∧ r.statusCode = 500) := by
  refine ⟨?_, ?_, ?_⟩
  · exact c6_agent_exceptions_contained.1 ⟨"secret123", failAgent⟩
      ⟨some "Bearer secret123", some [("query", "Who is Ada?")]⟩
      [("query", "Who is Ada?")] "Who is Ada?" "upstream boom"
      (by decide) rfl (by decide) rfl
  · exact c6_agent_exceptions_contained.2.1 failAgent "Who is Ada?"
      "upstream boom" rfl
  · exact c6_agent_exceptions_contained.2.2.2 ⟨ssmOk, failAgent⟩ freshState
      authorizedPostEvent rfl

/-- C7 (confirmed): the bootstrap is idempotent and failure-safe.  Once
the agent singleton is present, `initialize_agent` returns immediately
and leaves the whole module state unchanged; and whenever it raises, both
the resulting and the starting state have no agent singleton, so the next
request re-enters construction instead of reusing a half-built handle. -/
theorem c7_bootstrap_idempotent_failure_safe :
    (∀ (env : SsmEnv) (st : ModuleState) (a : Nat),
      st.agent = some a → initialize_agent env st = (st, .ok ())) ∧
    (∀ (env : SsmEnv) (st st2 : ModuleState) (e : PyErr),
      initialize_agent env st = (st2, .error e) →
      st2.agent = none ∧ st.agent = none) := by
  constructor
  · exact initialize_agent_of_some
  · intro env st st2 e h
    cases ha : st.agent with
    | some a =>
      rw [initialize_agent_of_some env st a ha] at h
      have h2 := congrArg Prod.snd h
      simp at h2
    | none =>
      have h1 : (initialize_agent env st).1 = st2 := by rw [h]
      constructor
      · rw [← h1, initialize_agent_agent, ha]
      · rfl

/-- C7 witness: the confirmed statement applied at concrete states — a
present singleton makes the call a no-op, and a failing construction
leaves the singleton absent. -/
theorem c7_witness :
    initialize_agent ssmOk readyState = (readyState, .ok ()) ∧
    freshState.agent = none := by
  constructor
  · exact c7_bootstrap_idempotent_failure_safe.1 ssmOk readyState 0 rfl
  · exact (c7_bootstrap_idempotent_failure_safe.2 ssmFail freshState
      freshState (.exc "ssm down") (by decide)).1

/-- C8 (code_bug): evaluation at an OPTIONS invocation.  The claim — 200,
empty body, permissive CORS headers, no authentication — matches the
OPTIONS branch of the handler (exercised here from a state whose agent
singleton is present), but `initialize_agent` runs before that branch and
always raises (`NameError` on the undefined `CHROMA_COLLECTION_NAME`), so
a real OPTIONS invocation receives the 500 initialization-failure
response instead. -/
theorem c8_options_preflight_eval :
    (lambda_handler envOk freshState optionsEvent).resp
        = .ok initFailureResponse ∧
    initFailureResponse.statusCode = 500 ∧
    (lambda_handler envOk readyState optionsEvent).resp
        = .ok corsPreflightResponse ∧
    corsPreflightResponse =
      ⟨200, corsHeaders, .emptyStr⟩ := by
  exact ⟨rfl, rfl, rfl, rfl⟩

/-- C9 counterexample: the serverless extraction step is not total — a
whitespace-only Authorization header splits to the empty list, indexing
it raises `IndexError`, and (from a state whose agent singleton is
present, the only way to reach the extraction step) the handler raises
instead of returning a response. -/
theorem c9_counterexample :
    extractToken " " = .error .indexError ∧
    (lambda_handler envOk readyState wsAuthEvent).resp
        = .error .indexError := by
  exact ⟨by decide, by decide⟩

/-- C9 (corrected): the standalone variant is extraction-total: the
element-1 index is guarded by the `"Bearer "` prefix (which guarantees at
least two space-separated parts), extraction always returns, and the
route always returns a response.  In the serverless variant the
split-and-index step is out of bounds for a whitespace-only header; the
handler as written still returns a response from every reachable (agent
singleton absent) state only because initialization fails before the
extraction step is reached. -/
theorem c9_extraction_totality :
    (∀ ah : Option String, ∃ tok, localExtractToken ah = .ok tok) ∧
    (∀ (env : LocalEnv) (req : FlaskRequest),
      ∃ r, (localQueryRoute env req).1 = .ok r) ∧
    (∀ (env : LambdaEnv) (st : ModuleState) (ev : LambdaEvent),
      st.agent = none → ∃ r, (lambda_handler env st ev).resp = .ok r) := by
  refine ⟨localExtractToken_total, ?_, ?_⟩
  · intro env req
    obtain ⟨tok, htok⟩ := localExtractToken_total req.authHeader
    unfold localQueryRoute
    rw [htok]
    cases tok with
    | none => exact ⟨_, rfl⟩
    | some t =>
      by_cases ht0 : t = ""
      · exact ⟨⟨401, [("error", "Unauthorized: Missing token")]⟩,
          by simp [ht0]⟩
      · by_cases hte : t = env.apiToken
        · obtain ⟨r, hr⟩ := queryEndpoint_ok env req
          refine ⟨r, ?_⟩
          subst hte
          simp [ht0, hr]
        · exact ⟨⟨401, [("error", "Unauthorized: Invalid token")]⟩,
            by simp [ht0, hte]⟩
  · intro env st ev h
    exact ⟨initFailureResponse, by rw [lambda_handler_agent_none env st ev h]⟩

/-- C9 witness: the corrected statement applied at concrete inputs for
all three conjuncts. -/
theorem c9_witness :
    (∃ tok, localExtractToken (some "Bearer secret123") = .ok tok) ∧
    (∃ r, (localQueryRoute localEnvOk ⟨some " ", some []⟩).1 = .ok r) ∧
    (∃ r, (lambda_handler envOk freshState wsAuthEvent).resp = .ok r) := by
  refine ⟨?_, ?_, ?_⟩
  · exact c9_extraction_totality.1 (some "Bearer secret123")
  · exact c9_extraction_totality.2.1 localEnvOk ⟨some " ", some []⟩
  · exact c9_extraction_totality.2.2 envOk freshState wsAuthEvent rfl

/-- C10 (confirmed): whenever the `initialize_agent` call of the handler
returns normally and the method is neither POST nor OPTIONS, the handler
answers 405 with the method-not-allowed error body; the answer is the
same for every Authorization header and body (the rejection precedes the
auth check and body parsing, and neither happens). -/
theorem c10_method_not_allowed (env : LambdaEnv) (st : ModuleState)
    (ev : LambdaEvent)
    (hinit : (initialize_agent env.ssm st).2 = .ok ())
    (hopt : ev.httpMethod ≠ some "OPTIONS")
    (hpost : ev.httpMethod ≠ some "POST") :
    (lambda_handler env st ev).resp = .ok methodNotAllowedResponse ∧
    (lambda_handler env st ev).trace.bodyParsed = false ∧
    (lambda_handler env st ev).trace.agentQueried = false := by
  unfold lambda_handler
  rw [hinit]
  simp [hopt, hpost]

/-- C10 witness: the confirmed statement applied at a GET event from a
state whose agent singleton is present (the only states from which the
initialization call completes, since cold construction always raises). -/
theorem c10_witness :
    (initialize_agent envOk.ssm readyState).2 = .ok () ∧
    (lambda_handler envOk readyState getEvent).resp
        = .ok methodNotAllowedResponse := by
  refine ⟨rfl, ?_⟩
  exact (c10_method_not_allowed envOk readyState getEvent rfl
    (by decide) (by decide)).1
